import Mathlib

/-
Verification development for the goose load-testing engine
(src/goose.rs and src/user.rs). The Rust code is shallowly embedded:
pure helpers become Lean functions, the stateful user driver becomes a
fuel-indexed step function over an explicit state record, and external
collaborators (the url crate, the rand crate, the HTTP client, the
channels and the wall clock) are modelled as parameters or as small
executable models documented at their definitions. Fatal control flow
(std::process::exit, unwrap panics) is reflected in explicit result
constructors rather than by partiality.
-/

namespace Goose

/-! URL model (external url crate, used by build_url). -/

/-- Model of a parsed absolute URL of the shape scheme://host/path from
the external url crate. In this model a successful parse always carries a
nonempty host, matching how build_url consumes the crate on the inputs
relevant here: parse failures (no scheme, empty scheme, empty host) are
the none case of urlParse. -/
structure ParsedUrl where
  scheme : String
  host : String
  path : String
deriving DecidableEq, Repr

/-- Structural scanner locating the first scheme separator: splits the
character list at the first colon followed by two slashes, returning the
characters before the separator and those after it. -/
def splitScheme : List Char → Option (List Char × List Char)
  | [] => none
  | c :: rest =>
    if c == ':' && rest.take 2 == ['/', '/'] then some ([], rest.drop 2)
    else
      match splitScheme rest with
      | some (pre, post) => some (c :: pre, post)
      | none => none

/-- Model of Url.parse from the external url crate, restricted to the
scheme://host/path fragment: it fails on strings without a scheme
separator, with an empty scheme, or with an empty host (the EmptyHost
error of the crate, for example on the string http:// alone), and
otherwise splits the remainder at the first slash into host and path,
normalizing a missing path to the single slash as the crate does. -/
def urlParse (s : String) : Option ParsedUrl :=
  match splitScheme s.data with
  | none => none
  | some (schemeCs, rest) =>
    if schemeCs = [] then none
    else
      let hostCs := rest.takeWhile (fun c => c != '/')
      let pathCs := rest.dropWhile (fun c => c != '/')
      if hostCs = [] then none
      else
        some { scheme := { data := schemeCs }, host := { data := hostCs },
               path := if pathCs = [] then "/" else { data := pathCs } }

/-- Serialization of a parsed URL, modelling Url.to_string. -/
def ParsedUrl.render (u : ParsedUrl) : String :=
  u.scheme ++ "://" ++ u.host ++ u.path

/-- Directory part of a path: everything up to and including the last
slash, as used by RFC 3986 merge of a relative reference. -/
def dirOf (p : String) : String :=
  { data := (p.data.reverse.dropWhile (fun c => c != '/')).reverse }

/-- Whether a reference string starts with a slash. -/
def startsWithSlash (p : String) : Bool :=
  match p.data with
  | [] => false
  | c :: _ => c == '/'

/-- Whether a reference string starts with a scheme and authority marker,
so that RFC 3986 resolution treats it as an absolute reference. -/
def looksAbsolute (p : String) : Bool :=
  match splitScheme p.data with
  | none => false
  | some (pre, _) => ! (pre.any (fun c => c == '/' || c == '?'))

/-- Model of Url.join from the external url crate (RFC 3986 reference
resolution), restricted to the cases the engine exercises: an absolute
reference replaces the whole URL, and the join fails when that reference
is itself invalid (for example http:// with an empty host, the concrete
way a join fails in goose); an absolute-path reference replaces the base
path; an empty reference yields the base; any other relative reference is
merged against the directory of the base path. -/
def urlJoin (base : ParsedUrl) (path : String) : Option String :=
  if looksAbsolute path then
    match urlParse path with
    | some u => some u.render
    | none => none
  else if startsWithSlash path then
    some (base.scheme ++ "://" ++ base.host ++ path)
  else if path = "" then
    some base.render
  else
    some (base.scheme ++ "://" ++ base.host ++ dirOf base.path ++ path)

/-! Shared data model (src/goose.rs). -/

/-- Used by the source for not-yet-assigned index fields
(usize::max_value()). -/
def usizeMax : Nat := 2 ^ 64 - 1

/-- Model of http::Method restricted to the verbs goose exposes. -/
inductive Method
  | GET
  | POST
  | HEAD
  | PUT
  | PATCH
  | DELETE
deriving DecidableEq, Repr

/-- Rust Debug formatting of a method, as used in the request-record key
format string of get_request and set_request. -/
def Method.fmt : Method → String
  | .GET => "GET"
  | .POST => "POST"
  | .HEAD => "HEAD"
  | .PUT => "PUT"
  | .PATCH => "PATCH"
  | .DELETE => "DELETE"

/-- Tracks the current run-mode of a client (src/goose.rs). -/
inductive GooseClientMode
  | INIT
  | HATCHING
  | RUNNING
  | EXITING
deriving DecidableEq, Repr

/-- Modelled from the spec: the crate-level GooseConfiguration snapshot
injected per user is declared outside src; the spec (section 6) lists the
fields the core reads, and src/goose.rs additionally reads print_stats.
Empty host means not set. -/
structure GooseConfiguration where
  host : String
  print_stats : Bool
  status_codes : Bool
  no_metrics : Bool
  no_task_metrics : Bool
deriving DecidableEq, Repr

/-- Commands sent between the parent and user threads (GooseClientCommand
in src/goose.rs, received as GooseUserCommand in src/user.rs). -/
inductive GooseUserCommand
  | SYNC
  | EXIT
deriving DecidableEq, BEq, Repr

/-- Association-list model of the std HashMap as used by the recorder:
lookup finds the first binding, insert replaces an existing binding or
appends a fresh one. -/
def lookupAssoc {α β : Type} [DecidableEq α] : List (α × β) → α → Option β
  | [], _ => none
  | (k, v) :: rest, key => if k = key then some v else lookupAssoc rest key

/-- Insert for the association-list model of HashMap. -/
def insertAssoc {α β : Type} [DecidableEq α] : List (α × β) → α → β → List (α × β)
  | [], key, v => [(key, v)]
  | (k, w) :: rest, key, v =>
    if k = key then (key, v) :: rest else (k, w) :: insertAssoc rest key v

/-- Statistics collected about a path-method pair (src/goose.rs,
struct GooseRequest). Response times are recorded by the source as f32
seconds; they are modelled as exact rationals. -/
structure GooseRequest where
  path : String
  method : Method
  response_times : List Rat
  status_code_counts : List (Nat × Nat)
  success_count : Nat
  fail_count : Nat
deriving DecidableEq, Repr

/-- GooseRequest::new. -/
def GooseRequest.new (path : String) (method : Method) : GooseRequest :=
  { path := path, method := method, response_times := [],
    status_code_counts := [], success_count := 0, fail_count := 0 }

/-- GooseRequest::set_response_time: append to the sample vector. -/
def GooseRequest.set_response_time (r : GooseRequest) (response_time : Rat) : GooseRequest :=
  { r with response_times := r.response_times ++ [response_time] }

/-- GooseRequest::set_status_code: a transport failure (None) is bucketed
under code 0; the counter for the code is incremented, starting at 1 the
first time the code is seen. -/
def GooseRequest.set_status_code (r : GooseRequest) (status_code : Option Nat) : GooseRequest :=
  let status_code_u16 :=
    match status_code with
    | some s => s
    | none => 0
  let counter :=
    match lookupAssoc r.status_code_counts status_code_u16 with
    | some c => c + 1
    | none => 1
  { r with status_code_counts := insertAssoc r.status_code_counts status_code_u16 counter }

/-- An individual client state (src/goose.rs, struct GooseClient). The
reqwest client handle and the schedule vectors are irrelevant to the
claims about this struct and are omitted; all statistics-bearing fields
are kept. -/
structure GooseClient where
  task_sets_index : Nat
  default_host : Option String
  task_set_host : Option String
  min_wait : Nat
  max_wait : Nat
  config : GooseConfiguration
  weighted_clients_index : Nat
  mode : GooseClientMode
  request_name : String
  requests : List (String × GooseRequest)
deriving DecidableEq, Repr

/-- GooseClient::new (the counter argument is only used by the source in
the fatal client-build error path, which the model leaves out together
with the reqwest client handle). -/
def GooseClient.new (counter : Nat) (task_sets_index : Nat) (default_host : Option String)
    (task_set_host : Option String) (min_wait : Nat) (max_wait : Nat)
    (configuration : GooseConfiguration) : GooseClient :=
  let _ := counter
  { task_sets_index := task_sets_index, default_host := default_host,
    task_set_host := task_set_host, min_wait := min_wait, max_wait := max_wait,
    config := configuration, weighted_clients_index := usizeMax,
    mode := GooseClientMode.INIT, request_name := "", requests := [] }

/-- GooseClient::get_request: fetch the record for the key, or a fresh
record. The key mirrors the source format string combining the Debug
rendering of the method and the path. -/
def GooseClient.get_request (c : GooseClient) (path : String) (method : Method) : GooseRequest :=
  match lookupAssoc c.requests (method.fmt ++ " " ++ path) with
  | some r => r
  | none => GooseRequest.new path method

/-- GooseClient::set_request: store the record under the same key. -/
def GooseClient.set_request (c : GooseClient) (path : String) (method : Method)
    (request : GooseRequest) : GooseClient :=
  { c with requests := insertAssoc c.requests (method.fmt ++ " " ++ path) request }

/-- Outcome of GooseClient.build_url. The source returns a plain String
and reaches two fatal branches: fatalExit models the explicit
std::process::exit(1) on a join failure, panicked models the unwrap
failures on an unparseable configured host or an absent default host. -/
inductive BuildUrlResult
  | ok (url : String)
  | fatalExit
  | panicked
deriving DecidableEq, Repr

/-- Whether a build_url outcome terminates the process. -/
def BuildUrlResult.isFatal : BuildUrlResult → Bool
  | .ok _ => false
  | .fatalExit => true
  | .panicked => true

/-- GooseClient::build_url (src/goose.rs lines 557-585), translated
branch for branch. When the supplied path parses as a URL the source
returns only the host component (uri.to_string() on line 561); otherwise
the base is the CLI host when nonempty, else the task-set host, else the
default host, and the base is joined with the path, exiting the process
when the join fails. In the URL model a successful parse always carries
a host, so the host check of line 560 is always met on the some branch. -/
def GooseClient.build_url (c : GooseClient) (path : String) : BuildUrlResult :=
  match urlParse path with
  | some parsed_path => BuildUrlResult.ok parsed_path.host
  | none =>
    let base_url :=
      if 0 < c.config.host.length then urlParse c.config.host
      else
        match c.task_set_host with
        | some host => urlParse host
        | none =>
          match c.default_host with
          | some d => urlParse d
          | none => none
    match base_url with
    | none => BuildUrlResult.panicked
    | some base =>
      match urlJoin base path with
      | some url => BuildUrlResult.ok url
      | none => BuildUrlResult.fatalExit

/-- Spec-side statement of the host precedence of section 4.2 (rules 2-4):
CLI host override when nonempty, else task-set host, else the default
host of the engine. Used only to compare build_url against the spec. -/
def resolvedBaseSpec (c : GooseClient) : Option String :=
  if 0 < c.config.host.length then some c.config.host
  else
    match c.task_set_host with
    | some host => some host
    | none => c.default_host

/-- Transport outcome of executing a request, as observed by goose_send:
either an HTTP response carrying a status code or a transport error. -/
inductive RequestOutcome
  | ok (status : Nat)
  | err
deriving DecidableEq, Repr

/-- StatusCode::is_success of the http crate: the 2xx class. -/
def statusIsSuccess (s : Nat) : Bool := 200 ≤ s && s ≤ 299

/-- GooseClient::goose_send (src/goose.rs lines 765-828), with the
external effects as parameters: the URL of the built request, the
measured elapsed wall-clock time in whole milliseconds, and the transport
outcome. Only the statistics state is returned. The recorded sample
mirrors line 775 and line 795 of the source: the elapsed duration is
multiplied by 100 and then expressed in seconds (as_secs_f32). -/
def GooseClient.goose_send (c : GooseClient) (method : Method) (url : String)
    (elapsed_ms : Nat) (response : RequestOutcome) : GooseClient :=
  if c.config.print_stats then
    let path :=
      match urlParse url with
      | some u => u.path
      | none => "parse error"
    let request_name := if c.request_name ≠ "" then c.request_name else path
    let goose_request := c.get_request request_name method
    let goose_request := goose_request.set_response_time (mkRat (elapsed_ms * 100) 1000)
    let goose_request :=
      match response with
      | RequestOutcome.ok status =>
        let goose_request :=
          if c.config.status_codes then goose_request.set_status_code (some status)
          else goose_request
        if statusIsSuccess status then
          { goose_request with success_count := goose_request.success_count + 1 }
        else
          { goose_request with fail_count := goose_request.fail_count + 1 }
      | RequestOutcome.err =>
        let goose_request := { goose_request with fail_count := goose_request.fail_count + 1 }
        if c.config.status_codes then goose_request.set_status_code none
        else goose_request
    c.set_request request_name method goose_request
  else c

/-- One goose_send call as seen from outside: the driver may first set the
public request_name field, then the request executes with the given
externally determined url, elapsed time and outcome. -/
structure SendOp where
  request_name : String
  method : Method
  url : String
  elapsed_ms : Nat
  response : RequestOutcome
deriving DecidableEq, Repr

/-- Apply one SendOp to a client. -/
def applySend (c : GooseClient) (op : SendOp) : GooseClient :=
  GooseClient.goose_send { c with request_name := op.request_name }
    op.method op.url op.elapsed_ms op.response

/-- The record invariant of claim C6: each record balances its outcome
counters against its sample vector. -/
def recordBalanced (r : GooseRequest) : Prop :=
  r.success_count + r.fail_count = r.response_times.length

/-! Task and task set (src/goose.rs). -/

/-- An individual task within a task set (src/goose.rs, struct
GooseTask). The function pointer is external to the model; invocations
are recorded as trace events instead. -/
structure GooseTask where
  tasks_index : Nat
  name : String
  weight : Nat
  sequence : Nat
  on_start : Bool
  on_stop : Bool
deriving DecidableEq, Repr

/-- GooseTask::new. -/
def GooseTask.new : GooseTask :=
  { tasks_index := usizeMax, name := "", weight := 1, sequence := 0,
    on_start := false, on_stop := false }

/-- GooseTask::named. -/
def GooseTask.named (name : String) : GooseTask :=
  { tasks_index := usizeMax, name := name, weight := 1, sequence := 0,
    on_start := false, on_stop := false }

/-- An individual task set (src/goose.rs, struct GooseTaskSet). -/
structure GooseTaskSet where
  name : String
  task_sets_index : Nat
  weight : Nat
  min_wait : Nat
  max_wait : Nat
  tasks : List GooseTask
  weighted_tasks : List (List Nat)
  weighted_on_start_tasks : List (List Nat)
  weighted_on_stop_tasks : List (List Nat)
  host : Option String
deriving DecidableEq, Repr

/-- GooseTaskSet::new. -/
def GooseTaskSet.new (name : String) : GooseTaskSet :=
  { name := name, task_sets_index := usizeMax, weight := 1, min_wait := 0,
    max_wait := 0, tasks := [], weighted_tasks := [],
    weighted_on_start_tasks := [], weighted_on_stop_tasks := [], host := none }

/-- GooseTaskSet::set_wait_time (src/goose.rs lines 361-370): the source
exits the process when min_wait exceeds max_wait, modelled as none;
otherwise both bounds are stored. -/
def GooseTaskSet.set_wait_time (ts : GooseTaskSet) (min_wait : Nat) (max_wait : Nat) :
    Option GooseTaskSet :=
  if min_wait > max_wait then none
  else some { ts with min_wait := min_wait, max_wait := max_wait }

/-! User driver (src/user.rs). -/

/-- Modelled from the spec: the async GooseUser struct consumed by
user_main is declared outside src (only its caller src/user.rs is
present). Fields follow the spec data model (section 3, User) and the
exact accesses user_main makes: the steady cursor is a pair of atomics on
the struct with the driver as single writer, modelled as plain fields
written at the same program points as the source stores. -/
structure GooseUser where
  task_sets_index : Nat
  weighted_users_index : Nat
  min_wait : Nat
  max_wait : Nat
  config : GooseConfiguration
  weighted_on_start_tasks : List (List Nat)
  weighted_tasks : List (List Nat)
  weighted_bucket : Nat
  weighted_bucket_position : Nat
  weighted_on_stop_tasks : List (List Nat)
  task_request_name : Option String
deriving DecidableEq, Repr

/-- Whether a drained message batch contains the EXIT command; the drain
loop of user_main reacts only to EXIT and logs everything else. -/
def batchHasExit (batch : List GooseUserCommand) : Bool :=
  batch.contains GooseUserCommand.EXIT

/-- Model of the external rand crate two-argument gen_range(low, high):
a uniform integer in the half-open range from low to high, driven by the
draw r from the RNG stream. The crate panics when low is not below high;
callers of this model guard that case separately (computeWaitTime). -/
def genRange (low : Nat) (high : Nat) (r : Nat) : Nat :=
  low + r % (high - low)

/-- The wait computation of the steady loop (src/user.rs lines 112-116):
with max_wait positive the wait is gen_range(min_wait, max_wait), with
max_wait zero it is zero. The none case models the gen_range panic of the
rand crate when min_wait is not below max_wait (claim C10). -/
def computeWaitTime (min_wait : Nat) (max_wait : Nat) (r : Nat) : Option Nat :=
  if 0 < max_wait then
    if min_wait < max_wait then some (genRange min_wait max_wait r) else none
  else some 0

/-- Result of the sleep loop: the surviving thread_continue flag, the
number of one-second quanta slept, and the remaining message script. -/
structure SleepResult where
  cont : Bool
  slept : Nat
  script : List (List GooseUserCommand)
deriving DecidableEq, Repr

/-- Fuel-indexed body of the sleep loop (src/user.rs lines 117-151). Each
iteration drains the pending message batch (EXIT clears thread_continue),
then either sleeps one second — leaving the loop once the slept counter
exceeds the wait — or leaves the loop at once when thread_continue is
cleared or max_wait is zero. The fuel supplied by sleepLoop is never
exhausted, so the fuel-zero fallback is unreachable. -/
def sleepLoopGo (max_wait : Nat) (wait_time : Nat) :
    Nat → Nat → List (List GooseUserCommand) → SleepResult
  | 0, slept, script => { cont := true, slept := slept, script := script }
  | fuel + 1, slept, script =>
    let batch := script.headD []
    let rest := script.tail
    let cont := ! batchHasExit batch
    if cont = true ∧ 0 < max_wait then
      if slept + 1 > wait_time then { cont := true, slept := slept + 1, script := rest }
      else sleepLoopGo max_wait wait_time fuel (slept + 1) rest
    else { cont := cont, slept := slept, script := rest }

/-- The sleep loop entered with a zero slept counter and thread_continue
still set, as in the source. -/
def sleepLoop (max_wait : Nat) (wait_time : Nat)
    (script : List (List GooseUserCommand)) : SleepResult :=
  sleepLoopGo max_wait wait_time (wait_time + 1) 0 script

/-- Which phase of the driver an invocation belongs to. -/
inductive Phase
  | onStart
  | steady
  | onStop
deriving DecidableEq, BEq, Repr

/-- One task invocation as recorded on the driver trace: the phase, the
index of the task within the owning task set, and its name. -/
structure InvokeEvent where
  phase : Phase
  task_index : Nat
  task_name : String
deriving DecidableEq, Repr

/-- State of the steady loop of user_main: the user struct, the local
cursor copies (weighted_bucket and weighted_bucket_position of lines
58-59), the thread_continue flag, the script of message batches the
receiver will deliver at successive drain points, the RNG draw stream,
the next shuffle index (numbering calls into the external shuffler), and
the trace of invocations so far. -/
structure DriverState where
  user : GooseUser
  bucket : Nat
  pos : Nat
  cont : Bool
  script : List (List GooseUserCommand)
  rng : List Nat
  shufIdx : Nat
  trace : List InvokeEvent
deriving DecidableEq, Repr

/-- The bucket-exhaustion step at the top of the steady loop (src/user.rs
lines 66-86). When the current bucket is exhausted the position resets to
zero and is stored, the bucket advances and wraps, the source then stores
the value of weighted_bucket_position — which was just reset to zero —
into the weighted_bucket atomic (lines 77-79), and the new bucket is
shuffled in place. Returns the user, the local bucket, the local
position, and the next shuffle index. -/
def advanceCursor (shuf : Nat → List Nat → List Nat) (s : DriverState) :
    GooseUser × Nat × Nat × Nat :=
  if (s.user.weighted_tasks.getD s.bucket []).length ≤ s.pos then
    let pos1 := 0
    let u1 := { s.user with weighted_bucket_position := pos1 }
    let b1 := s.bucket + 1
    let b2 := if u1.weighted_tasks.length ≤ b1 then 0 else b1
    let u2 := { u1 with weighted_bucket := pos1 }
    let u3 := { u2 with
      weighted_tasks := u2.weighted_tasks.set b2 (shuf s.shufIdx (u2.weighted_tasks.getD b2 [])) }
    (u3, b2, pos1, s.shufIdx + 1)
  else
    (s.user, s.bucket, s.pos, s.shufIdx)

/-- The task index selected by the current iteration (src/user.rs lines
89-90), read at the cursor after the exhaustion step. Out-of-range
indexing — a Rust panic, unreachable while every bucket is nonempty — is
totalized with index zero. -/
def selectedTaskIndex (shuf : Nat → List Nat → List Nat) (s : DriverState) : Nat :=
  let a := advanceCursor shuf s
  (a.1.weighted_tasks.getD a.2.1 []).getD a.2.2.1 0

/-- The name of the task selected by the current iteration (src/user.rs
line 91). -/
def selectedTaskName (ts : GooseTaskSet) (shuf : Nat → List Nat → List Nat)
    (s : DriverState) : String :=
  (ts.tasks.getD (selectedTaskIndex shuf s) GooseTask.new).name

/-- One iteration of the steady loop of user_main (src/user.rs lines
64-158): advance the cursor if the bucket is exhausted, select the task,
set task_request_name when the task name is nonempty (lines 97-100),
invoke the task (recorded as a trace event), compute the wait, run the
sleep loop, then advance and store the position. The getD on the wait
models that the gen_range panic is unreachable under the wait
precondition established by claim C10. -/
def loopIter (ts : GooseTaskSet) (shuf : Nat → List Nat → List Nat)
    (s : DriverState) : DriverState :=
  let a := advanceCursor shuf s
  let u := a.1
  let bucket := a.2.1
  let pos := a.2.2.1
  let shufIdx := a.2.2.2
  let name := selectedTaskName ts shuf s
  let u := if name ≠ "" then { u with task_request_name := some name } else u
  let r := s.rng.headD 0
  let wait_time := (computeWaitTime u.min_wait u.max_wait r).getD 0
  let sr := sleepLoop u.max_wait wait_time s.script
  let pos2 := pos + 1
  let u := { u with weighted_bucket_position := pos2 }
  { user := u, bucket := bucket, pos := pos2, cont := sr.cont,
    script := sr.script, rng := s.rng.tail, shufIdx := shufIdx,
    trace := s.trace ++ [{ phase := Phase.steady,
                           task_index := selectedTaskIndex shuf s,
                           task_name := name }] }

/-- The steady loop (while thread_continue) as a fuel-indexed iteration
of loopIter. -/
def steadyRun (ts : GooseTaskSet) (shuf : Nat → List Nat → List Nat) :
    Nat → DriverState → DriverState
  | 0, s => s
  | fuel + 1, s => if s.cont then steadyRun ts shuf fuel (loopIter ts shuf s) else s

/-- One bucket of an on_start or on_stop phase (src/user.rs lines 39-52
and 166-179): walk the bucket in order, setting task_request_name when
the task name is nonempty and recording each invocation. -/
def runPhaseBucket (ts : GooseTaskSet) (ph : Phase) :
    GooseUser → List Nat → GooseUser × List InvokeEvent
  | u, [] => (u, [])
  | u, task_index :: restIdx =>
    let name := (ts.tasks.getD task_index GooseTask.new).name
    let u1 := if name ≠ "" then { u with task_request_name := some name } else u
    let r := runPhaseBucket ts ph u1 restIdx
    (r.1, { phase := ph, task_index := task_index, task_name := name } :: r.2)

/-- An on_start or on_stop phase (src/user.rs lines 33-54 and 160-181):
each bucket of the schedule in order, shuffled first when it holds more
than one entry. Returns the user, the events, and the next shuffle
index. -/
def runPhase (ts : GooseTaskSet) (shuf : Nat → List Nat → List Nat) (ph : Phase) :
    Nat → GooseUser → List (List Nat) → GooseUser × List InvokeEvent × Nat
  | si, u, [] => (u, [], si)
  | si, u, bucket :: restSched =>
    let bucket1 := if 1 < bucket.length then shuf si bucket else bucket
    let si1 := if 1 < bucket.length then si + 1 else si
    let r1 := runPhaseBucket ts ph u bucket1
    let r2 := runPhase ts shuf ph si1 r1.1 restSched
    (r2.1, r1.2 ++ r2.2.1, r2.2.2)

/-- Result of a full user_main run: the final user and the invocation
trace. -/
structure UserRun where
  user : GooseUser
  trace : List InvokeEvent
deriving DecidableEq, Repr

/-- user_main (src/user.rs lines 12-197): the on_start phase, then the
steady loop started from the cursor read out of the atomics (lines
58-59) with thread_continue cleared up front when the steady schedule is
empty (lines 60-63), then the on_stop phase. -/
def user_main (fuel : Nat) (ts : GooseTaskSet) (shuf : Nat → List Nat → List Nat)
    (script : List (List GooseUserCommand)) (rng : List Nat) (u0 : GooseUser) : UserRun :=
  let ph1 := runPhase ts shuf Phase.onStart 0 u0 u0.weighted_on_start_tasks
  let s0 : DriverState :=
    { user := ph1.1, bucket := ph1.1.weighted_bucket,
      pos := ph1.1.weighted_bucket_position,
      cont := ! ph1.1.weighted_tasks.isEmpty,
      script := script, rng := rng, shufIdx := ph1.2.2, trace := [] }
  let sEnd := steadyRun ts shuf fuel s0
  let ph3 := runPhase ts shuf Phase.onStop sEnd.shufIdx sEnd.user
    sEnd.user.weighted_on_stop_tasks
  { user := ph3.1, trace := ph1.2.1 ++ sEnd.trace ++ ph3.2.1 }

/-! Concrete fixtures used by witnesses and counterexamples. -/

/-- Identity stand-in for the external shuffler, used when instantiating
theorems at concrete inputs. -/
def shufId : Nat → List Nat → List Nat := fun _ l => l

/-- Configuration with statistics on and no CLI host. -/
def cfgStats : GooseConfiguration :=
  { host := "", print_stats := true, status_codes := false,
    no_metrics := false, no_task_metrics := false }

/-- Configuration of scenario D of the spec: CLI host http://prod. -/
def cfgCliProd : GooseConfiguration := { cfgStats with host := "http://prod" }

/-- Client of scenario D: CLI host http://prod, task-set host
http://stage, default host http://dev. -/
def clientScenarioD : GooseClient :=
  GooseClient.new 0 0 (some ("http://dev")) (some ("http://stage")) 0 0 cfgCliProd

/-- Scenario D client with the CLI host empty. -/
def clientNoCli : GooseClient :=
  GooseClient.new 0 0 (some ("http://dev")) (some ("http://stage")) 0 0 cfgStats

/-- A client with statistics on and no hosts configured, for goose_send
statistics claims. -/
def clientStats : GooseClient := GooseClient.new 0 0 none none 0 0 cfgStats

/-- Send operations for the C6 witness: two requests to the same path and
one to another, mixing success, HTTP failure and transport failure. -/
def ops6 : List SendOp :=
  [ { request_name := "", method := Method.GET, url := "http://h/x",
      elapsed_ms := 250, response := RequestOutcome.ok 200 },
    { request_name := "other", method := Method.POST, url := "http://h/y",
      elapsed_ms := 30, response := RequestOutcome.err },
    { request_name := "", method := Method.GET, url := "http://h/x",
      elapsed_ms := 100, response := RequestOutcome.ok 500 } ]

/-- The record accumulated for the GET /x key by ops6. -/
def req6 : GooseRequest :=
  { path := "/x", method := Method.GET, response_times := [25, 10],
    status_code_counts := [], success_count := 1, fail_count := 1 }

/-- A task set with two named tasks in two steady buckets, exercising the
bucket-advance step. -/
def ts7 : GooseTaskSet :=
  { GooseTaskSet.new ("TS7") with tasks := [GooseTask.named ("a"), GooseTask.named ("b")] }

/-- User over ts7 with steady schedule of two singleton buckets. -/
def u7 : GooseUser :=
  { task_sets_index := 0, weighted_users_index := 0, min_wait := 0, max_wait := 0,
    config := cfgStats, weighted_on_start_tasks := [], weighted_tasks := [[0], [1]],
    weighted_bucket := 0, weighted_bucket_position := 0,
    weighted_on_stop_tasks := [], task_request_name := none }

/-- Steady-loop state over u7 at the start of the loop. -/
def s7 : DriverState :=
  { user := u7, bucket := 0, pos := 0, cont := true, script := [], rng := [],
    shufIdx := 0, trace := [] }

/-- A task set whose steady bucket holds a named task followed by an
unnamed one. -/
def ts8 : GooseTaskSet :=
  { GooseTaskSet.new ("TS8") with tasks := [GooseTask.named ("a"), GooseTask.new] }

/-- User over ts8 with one steady bucket holding both tasks. -/
def u8 : GooseUser :=
  { task_sets_index := 0, weighted_users_index := 0, min_wait := 0, max_wait := 0,
    config := cfgStats, weighted_on_start_tasks := [], weighted_tasks := [[0, 1]],
    weighted_bucket := 0, weighted_bucket_position := 0,
    weighted_on_stop_tasks := [], task_request_name := none }

/-- Steady-loop state over u8 at the start of the loop. -/
def s8 : DriverState :=
  { user := u8, bucket := 0, pos := 0, cont := true, script := [], rng := [],
    shufIdx := 0, trace := [] }

/-- A task set with one steady task and one on_stop task. -/
def ts5 : GooseTaskSet :=
  { GooseTaskSet.new ("TS5") with tasks := [GooseTask.named ("t"), GooseTask.named ("bye")] }

/-- User over ts5: steady schedule [[0]], on_stop schedule [[1]]. -/
def u5 : GooseUser :=
  { task_sets_index := 0, weighted_users_index := 0, min_wait := 0, max_wait := 0,
    config := cfgStats, weighted_on_start_tasks := [], weighted_tasks := [[0]],
    weighted_bucket := 0, weighted_bucket_position := 0,
    weighted_on_stop_tasks := [[1]], task_request_name := none }

/-- Steady-loop state over u5 with an EXIT command pending at the first
drain point. -/
def s5 : DriverState :=
  { user := u5, bucket := 0, pos := 0, cont := true,
    script := [[GooseUserCommand.EXIT]], rng := [], shufIdx := 0, trace := [] }

/-- A plain task set for the set_wait_time witness. -/
def tsPlain : GooseTaskSet := GooseTaskSet.new ("Example")

/-! Theorems. Shared helper lemmas come first, then one theorem per
claim together with its witness or counterexample. -/

/-- Helper: when the path does not parse as a URL, build_url parses the
base resolved by the section 4.2 precedence and joins it with the path,
exiting the process when the join fails. -/
theorem build_url_base {c : GooseClient} {p b : String} {u : ParsedUrl}
    (h1 : urlParse p = none) (h2 : resolvedBaseSpec c = some b)
    (h3 : urlParse b = some u) :
    c.build_url p =
      match urlJoin u p with
      | some url => BuildUrlResult.ok url
      | none => BuildUrlResult.fatalExit := by
  unfold resolvedBaseSpec at h2
  simp only [GooseClient.build_url, h1]
  by_cases hc : 0 < c.config.host.length
  · rw [if_pos hc] at h2
    obtain rfl : c.config.host = b := by injection h2
    simp only [if_pos hc, h3]
  · rw [if_neg hc] at h2
    simp only [if_neg hc]
    cases hts : c.task_set_host with
    | some host =>
      simp only [hts, Option.some.injEq] at h2
      subst h2
      simp only [h3]
    | none =>
      simp only [hts] at h2 ⊢
      simp only [h2, h3]

/-- C1 — the claim that build_url returns an absolute-URL path unchanged
fails on the code: on the path http://elsewhere/y of scenario D the source
(src/goose.rs line 561) returns only the host component, the string
elsewhere, not the original URL. -/
theorem build_url_returns_host_only_bug :
    clientScenarioD.build_url ("http://elsewhere/y") = BuildUrlResult.ok ("elsewhere")
    ∧ ("elsewhere" : String) ≠ "http://elsewhere/y" := by
  exact ⟨by decide, by decide⟩

/-- C2 — for a path that does not itself carry a host, build_url resolves
the base with the precedence CLI host override when nonempty, else
task-set host when defined, else the default host of the engine, and
joins the chosen base with the path (the join failure branch exits, cf.
claim C9). -/
theorem build_url_host_precedence (c : GooseClient) (p b : String) (u : ParsedUrl)
    (h1 : urlParse p = none) (h2 : resolvedBaseSpec c = some b)
    (h3 : urlParse b = some u) :
    c.build_url p =
      match urlJoin u p with
      | some url => BuildUrlResult.ok url
      | none => BuildUrlResult.fatalExit :=
  build_url_base h1 h2 h3

/-- C2 witness — scenario D of the spec: with CLI host http://prod,
task-set host http://stage and default host http://dev, the path /x
resolves against the CLI host, and with the CLI host empty it resolves
against the task-set host. -/
theorem build_url_host_precedence_witness :
    clientScenarioD.build_url ("/x") = BuildUrlResult.ok ("http://prod/x")
    ∧ clientNoCli.build_url ("/x") = BuildUrlResult.ok ("http://stage/x") := by
  constructor
  · have h := build_url_host_precedence clientScenarioD ("/x") ("http://prod")
      { scheme := "http", host := "prod", path := "/" } (by decide) (by decide) (by decide)
    rw [h]
    decide
  · have h := build_url_host_precedence clientNoCli ("/x") ("http://stage")
      { scheme := "http", host := "stage", path := "/" } (by decide) (by decide) (by decide)
    rw [h]
    decide

/-- C9 counterexample — the claim that a join failure is non-fatal fails
on the code: joining the base resolved for scenario D with the reference
http:// (an absolute reference with an empty host, which the url crate
rejects) drives build_url into the branch of src/goose.rs lines 580-584,
which logs and calls std::process::exit(1) — modelled as fatalExit — so
no error is recorded or surfaced to the task. -/
theorem url_join_failure_exits_counterexample :
    clientScenarioD.build_url ("http://") = BuildUrlResult.fatalExit
    ∧ (clientScenarioD.build_url ("http://")).isFatal = true := by
  exact ⟨by decide, by decide⟩

/-- C9 amended — when the RFC 3986 join of the resolved base and the path
fails, build_url logs an error and terminates the process: the failure is
fatal rather than being recorded as a transport failure or surfaced to
the calling task procedure. -/
theorem url_join_failure_is_fatal (c : GooseClient) (p b : String) (u : ParsedUrl)
    (h1 : urlParse p = none) (h2 : resolvedBaseSpec c = some b)
    (h3 : urlParse b = some u) (h4 : urlJoin u p = none) :
    c.build_url p = BuildUrlResult.fatalExit := by
  rw [build_url_base h1 h2 h3, h4]

/-- C9 amended witness — with the CLI host empty the base is the task-set
host http://stage, and joining it with http:// fails, so build_url exits
the process. -/
theorem url_join_failure_is_fatal_witness :
    clientNoCli.build_url ("http://") = BuildUrlResult.fatalExit :=
  url_join_failure_is_fatal clientNoCli ("http://") ("http://stage")
    { scheme := "http", host := "stage", path := "/" }
    (by decide) (by decide) (by decide) (by decide)

/-- C3 — the claim that the timing sample equals the elapsed wall-clock
time in plain integer milliseconds fails on the code: for a request whose
dispatch took 250 milliseconds, src/goose.rs line 775 multiplies the
elapsed duration by 100 and line 795 records it as floating-point
seconds, so the stored sample is 25, not 250. -/
theorem goose_send_elapsed_times_100_bug :
    (lookupAssoc
        (clientStats.goose_send Method.GET ("http://h/x") 250 (RequestOutcome.ok 200)).requests
        ("GET /x")).map GooseRequest.response_times = some [(25 : Rat)]
    ∧ (25 : Rat) ≠ 250 := by
  constructor
  · decide
  · norm_num

/-- Helper: a successful association-list lookup returns a stored
binding. -/
theorem lookupAssoc_mem {α β : Type} [DecidableEq α] {l : List (α × β)} {k : α} {v : β}
    (h : lookupAssoc l k = some v) : (k, v) ∈ l := by
  induction l with
  | nil => simp [lookupAssoc] at h
  | cons hd tl ih =>
    obtain ⟨k1, v1⟩ := hd
    by_cases hk : k1 = k
    · subst hk
      simp only [lookupAssoc, if_pos rfl] at h
      injection h with hv
      subst hv
      exact List.mem_cons_self _ _
    · simp only [lookupAssoc, if_neg hk] at h
      exact List.mem_cons_of_mem _ (ih h)

/-- Helper: a binding of an association list after insertion is the
inserted binding or one of the previous bindings. -/
theorem mem_insertAssoc {α β : Type} [DecidableEq α] {l : List (α × β)} {k : α} {v : β}
    {e : α × β} (h : e ∈ insertAssoc l k v) : e = (k, v) ∨ e ∈ l := by
  induction l with
  | nil => simpa [insertAssoc] using h
  | cons hd tl ih =>
    obtain ⟨k1, v1⟩ := hd
    by_cases hk : k1 = k
    · rw [insertAssoc, if_pos hk] at h
      rcases List.mem_cons.mp h with heq | htl
      · exact Or.inl heq
      · exact Or.inr (List.mem_cons_of_mem _ htl)
    · rw [insertAssoc, if_neg hk] at h
      rcases List.mem_cons.mp h with heq | htl
      · exact Or.inr (heq ▸ List.mem_cons_self _ _)
      · rcases ih htl with h1 | h2
        · exact Or.inl h1
        · exact Or.inr (List.mem_cons_of_mem _ h2)

/-- Helper: a fetched record is balanced whenever all stored records
are — either it is stored, or it is fresh with zero counts and no
samples. -/
theorem get_request_balanced {c : GooseClient}
    (hc : ∀ e ∈ c.requests, recordBalanced e.2) (path : String) (method : Method) :
    recordBalanced (c.get_request path method) := by
  unfold GooseClient.get_request
  cases hl : lookupAssoc c.requests (method.fmt ++ " " ++ path) with
  | some r => exact hc _ (lookupAssoc_mem hl)
  | none => simp [GooseRequest.new, recordBalanced]

/-- Helper: one goose_send call preserves the balance of every stored
record: the sample vector gains exactly one entry and exactly one of the
two outcome counters is incremented (or, with statistics off, nothing
changes). -/
theorem goose_send_balanced {c : GooseClient}
    (hc : ∀ e ∈ c.requests, recordBalanced e.2)
    (method : Method) (url : String) (elapsed_ms : Nat) (response : RequestOutcome) :
    ∀ e ∈ (c.goose_send method url elapsed_ms response).requests, recordBalanced e.2 := by
  intro e he
  by_cases hp : c.config.print_stats
  · simp only [GooseClient.goose_send, if_pos hp, GooseClient.set_request] at he
    rcases mem_insertAssoc he with heq | hmem
    · subst heq
      have h0 := get_request_balanced hc
        (if c.request_name ≠ "" then c.request_name
         else
           match urlParse url with
           | some u => u.path
           | none => "parse error") method
      cases response with
      | ok status =>
        by_cases hsc : c.config.status_codes <;> by_cases hs : statusIsSuccess status <;>
          simp only [recordBalanced, GooseRequest.set_response_time,
            GooseRequest.set_status_code, hsc, hs, if_true, if_false,
            List.length_append, List.length_cons, List.length_nil,
            Bool.false_eq_true, if_neg] at h0 ⊢ <;>
          simp_all <;> omega
      | err =>
        by_cases hsc : c.config.status_codes <;>
          simp only [recordBalanced, GooseRequest.set_response_time,
            GooseRequest.set_status_code, hsc, List.length_append,
            List.length_cons, List.length_nil] at h0 ⊢ <;>
          simp_all <;> omega
    · exact hc _ hmem
  · simp only [GooseClient.goose_send, if_neg hp] at he
    exact hc _ he

/-- Helper: the balance invariant is preserved across any sequence of
goose_send calls. -/
theorem foldl_send_balanced : ∀ (ops : List SendOp) (c : GooseClient),
    (∀ e ∈ c.requests, recordBalanced e.2) →
    ∀ e ∈ (ops.foldl applySend c).requests, recordBalanced e.2 := by
  intro ops
  induction ops with
  | nil => intro c hc; simpa using hc
  | cons op rest ih =>
    intro c hc
    simp only [List.foldl_cons]
    apply ih
    intro e he
    exact goose_send_balanced (c := { c with request_name := op.request_name })
      (fun e h => hc e h) op.method op.url op.elapsed_ms op.response e he

/-- C6 — for every client and every sequence of goose_send calls starting
from a fresh client, every stored per-(method, name) record satisfies
success count plus failure count equals the number of timing samples. -/
theorem record_counts_match_samples (counter task_sets_index : Nat)
    (default_host task_set_host : Option String) (min_wait max_wait : Nat)
    (configuration : GooseConfiguration) (ops : List SendOp) (e : String × GooseRequest)
    (he : e ∈ (ops.foldl applySend
        (GooseClient.new counter task_sets_index default_host task_set_host
          min_wait max_wait configuration)).requests) :
    e.2.success_count + e.2.fail_count = e.2.response_times.length :=
  foldl_send_balanced ops _ (by intro x hx; simp [GooseClient.new] at hx) e he

/-- C6 witness — after the three sends of ops6 the record stored for the
GET /x key holds one success, one failure and two samples. -/
theorem record_counts_match_samples_witness :
    req6.success_count + req6.fail_count = req6.response_times.length :=
  record_counts_match_samples 0 0 none none 0 0 cfgStats ops6 ("GET /x", req6) (by decide)

/-- C10 — the steady-loop wait computation is total for every user with
max_wait zero or min_wait below max_wait, while the boundary case
min_wait equal to max_wait positive is accepted by the set_wait_time
validation of the task-set builder yet drives the wait computation into
the gen_range panic branch (the half-open draw range is empty there). -/
theorem wait_computation_total (min_wait max_wait r : Nat) (ts : GooseTaskSet) :
    ((max_wait = 0 ∨ min_wait < max_wait) → (computeWaitTime min_wait max_wait r).isSome = true)
    ∧ (0 < max_wait → min_wait = max_wait →
        (ts.set_wait_time min_wait max_wait).isSome = true
        ∧ computeWaitTime min_wait max_wait r = none) := by
  constructor
  · intro h
    unfold computeWaitTime
    rcases h with h0 | hlt
    · subst h0
      simp
    · rw [if_pos (by omega), if_pos hlt]
      rfl
  · intro hpos heq
    subst heq
    constructor
    · unfold GooseTaskSet.set_wait_time
      rw [if_neg (by omega)]
      rfl
    · unfold computeWaitTime
      rw [if_pos hpos, if_neg (by omega)]

/-- C10 witness — the wait computation succeeds at min_wait 0 and
max_wait 5, while min_wait and max_wait both 4 pass set_wait_time
validation yet make the wait computation hit the panic branch. -/
theorem wait_computation_total_witness :
    (computeWaitTime 0 5 3).isSome = true
    ∧ ((tsPlain.set_wait_time 4 4).isSome = true ∧ computeWaitTime 4 4 9 = none) :=
  ⟨(wait_computation_total 0 5 3 tsPlain).1 (Or.inr (by omega)),
   (wait_computation_total 4 4 9 tsPlain).2 (by omega) rfl⟩

/-- Helper: with no EXIT pending and max_wait positive, the sleep loop
keeps sleeping one-second quanta until the slept counter exceeds the
wait, so it sleeps exactly wait_time + 1 quanta. -/
theorem sleepLoopGo_no_exit (max_wait wait_time : Nat) (hm : 0 < max_wait) :
    ∀ (fuel slept : Nat) (script : List (List GooseUserCommand)),
      (∀ b ∈ script, batchHasExit b = false) →
      slept + fuel = wait_time + 1 →
      (sleepLoopGo max_wait wait_time fuel slept script).slept = wait_time + 1 := by
  intro fuel
  induction fuel with
  | zero =>
    intro slept script hs hsum
    simp only [sleepLoopGo]
    omega
  | succ fuel ih =>
    intro slept script hs hsum
    have hbatch : batchHasExit (script.headD []) = false := by
      cases script with
      | nil => rfl
      | cons b bs => exact hs b (List.mem_cons_self _ _)
    simp only [sleepLoopGo, hbatch, Bool.not_false]
    rw [if_pos (And.intro (by trivial) hm)]
    by_cases hgt : slept + 1 > wait_time
    · rw [if_pos hgt]
      show slept + 1 = wait_time + 1
      omega
    · rw [if_neg hgt]
      apply ih
      · intro b hb
        apply hs
        cases script with
        | nil => simp at hb
        | cons x xs => exact List.mem_cons_of_mem _ hb
      · omega

/-- C4 counterexample — with min_wait 0 and max_wait 1 the only possible
draw is 0 (the half-open draw range holds just 0), yet the sleep loop of
src/user.rs lines 117-151 keeps sleeping until the slept counter exceeds
the wait, so the total sleep is 1 second, which does not lie in the
claimed half-open range from min_wait to max_wait. -/
theorem sleep_total_not_in_range_counterexample :
    computeWaitTime 0 1 5 = some 0
    ∧ (sleepLoop 1 0 []).slept = 1
    ∧ ¬ ((sleepLoop 1 0 []).slept < 1) := by
  exact ⟨by decide, by decide, by decide⟩

/-- C4 amended — between invocations with min_wait below max_wait the
driver draws w uniformly from the half-open range from min_wait to
max_wait and then sleeps w + 1 whole seconds (so the total sleep lies
between min_wait + 1 and max_wait inclusive); with max_wait zero no
sleep occurs at all. -/
theorem sleep_total_is_draw_plus_one (min_wait max_wait r : Nat)
    (script : List (List GooseUserCommand))
    (hscript : ∀ b ∈ script, batchHasExit b = false) :
    (min_wait < max_wait →
      ∃ w, computeWaitTime min_wait max_wait r = some w ∧ min_wait ≤ w ∧ w < max_wait ∧
        (sleepLoop max_wait w script).slept = w + 1)
    ∧ (sleepLoop 0 ((computeWaitTime min_wait 0 r).getD 0) script).slept = 0 := by
  refine And.intro ?_ ?_
  · intro hlt
    have hm : 0 < max_wait := by omega
    refine ⟨genRange min_wait max_wait r, ?_, ?_, ?_, ?_⟩
    · unfold computeWaitTime
      rw [if_pos hm, if_pos hlt]
    · unfold genRange
      omega
    · unfold genRange
      have := Nat.mod_lt r (y := max_wait - min_wait) (by omega)
      omega
    · exact sleepLoopGo_no_exit max_wait _ hm _ 0 script hscript (by omega)
  · simp [computeWaitTime, sleepLoop, sleepLoopGo]

/-- C4 amended witness — with min_wait 1, max_wait 3 and draw 1 the wait
is 2 and the sleep loop sleeps 3 seconds while a pending SYNC is drained
and ignored. -/
theorem sleep_total_is_draw_plus_one_witness :
    ∃ w, computeWaitTime 1 3 1 = some w ∧ 1 ≤ w ∧ w < 3 ∧
      (sleepLoop 3 w [[GooseUserCommand.SYNC]]).slept = w + 1 :=
  (sleep_total_is_draw_plus_one 1 3 1 [[GooseUserCommand.SYNC]]
    (by intro b hb; rcases List.mem_singleton.mp hb with rfl; rfl)).1 (by omega)

/-- Helper: the cursor-advance step never touches the on_stop schedule of
the user. -/
theorem advanceCursor_on_stop (shuf : Nat → List Nat → List Nat) (s : DriverState) :
    (advanceCursor shuf s).1.weighted_on_stop_tasks = s.user.weighted_on_stop_tasks := by
  unfold advanceCursor
  split <;> rfl

/-- Helper: the cursor-advance step never touches task_request_name. -/
theorem advanceCursor_task_request_name (shuf : Nat → List Nat → List Nat) (s : DriverState) :
    (advanceCursor shuf s).1.task_request_name = s.user.task_request_name := by
  unfold advanceCursor
  split <;> rfl

/-- Helper: every steady iteration appends exactly one invocation event,
recorded before the sleep loop runs. -/
theorem loopIter_trace (ts : GooseTaskSet) (shuf : Nat → List Nat → List Nat)
    (s : DriverState) :
    (loopIter ts shuf s).trace
      = s.trace ++ [{ phase := Phase.steady, task_index := selectedTaskIndex shuf s,
                      task_name := selectedTaskName ts shuf s }] := rfl

/-- Helper: a steady iteration never touches the on_stop schedule. -/
theorem loopIter_on_stop (ts : GooseTaskSet) (shuf : Nat → List Nat → List Nat)
    (s : DriverState) :
    (loopIter ts shuf s).user.weighted_on_stop_tasks = s.user.weighted_on_stop_tasks := by
  simp only [loopIter]
  split <;> exact advanceCursor_on_stop shuf s

/-- Helper: once thread_continue is cleared the steady loop performs no
further iterations. -/
theorem steadyRun_stop (ts : GooseTaskSet) (shuf : Nat → List Nat → List Nat) :
    ∀ (fuel : Nat) (s : DriverState), s.cont = false → steadyRun ts shuf fuel s = s := by
  intro fuel
  induction fuel with
  | zero => intro s _; rfl
  | succ fuel _ => intro s h; simp [steadyRun, h]

/-- Helper: the steady loop only appends steady events, so the on_stop
part of the trace filter is unchanged by running it. -/
theorem steadyRun_filter_on_stop (ts : GooseTaskSet) (shuf : Nat → List Nat → List Nat) :
    ∀ (fuel : Nat) (s : DriverState),
      ((steadyRun ts shuf fuel s).trace).filter (fun e => e.phase == Phase.onStop)
        = s.trace.filter (fun e => e.phase == Phase.onStop) := by
  intro fuel
  induction fuel with
  | zero => intro s; rfl
  | succ fuel ih =>
    intro s
    by_cases h : s.cont = true
    · have hb : (Phase.steady == Phase.onStop) = false := rfl
      simp only [steadyRun, h, if_true]
      rw [ih, loopIter_trace, List.filter_append]
      simp [hb]
    · simp [steadyRun, h]

/-- Helper: the steady loop preserves the on_stop schedule. -/
theorem steadyRun_on_stop (ts : GooseTaskSet) (shuf : Nat → List Nat → List Nat) :
    ∀ (fuel : Nat) (s : DriverState),
      (steadyRun ts shuf fuel s).user.weighted_on_stop_tasks
        = s.user.weighted_on_stop_tasks := by
  intro fuel
  induction fuel with
  | zero => intro s; rfl
  | succ fuel ih =>
    intro s
    by_cases h : s.cont = true
    · simp only [steadyRun, h, if_true]
      rw [ih, loopIter_on_stop]
    · simp [steadyRun, h]

/-- Helper: a phase bucket walk preserves the on_stop schedule. -/
theorem runPhaseBucket_on_stop (ts : GooseTaskSet) (ph : Phase) :
    ∀ (b : List Nat) (u : GooseUser),
      (runPhaseBucket ts ph u b).1.weighted_on_stop_tasks = u.weighted_on_stop_tasks := by
  intro b
  induction b with
  | nil => intro u; rfl
  | cons i rest ih =>
    intro u
    simp only [runPhaseBucket]
    rw [ih]
    split <;> rfl

/-- Helper: every event of a phase bucket walk carries that phase. -/
theorem runPhaseBucket_phase (ts : GooseTaskSet) (ph : Phase) :
    ∀ (b : List Nat) (u : GooseUser),
      ∀ e ∈ (runPhaseBucket ts ph u b).2, e.phase = ph := by
  intro b
  induction b with
  | nil => intro u e he; simp [runPhaseBucket] at he
  | cons i rest ih =>
    intro u e he
    simp only [runPhaseBucket, List.mem_cons] at he
    rcases he with rfl | hmem
    · rfl
    · exact ih _ e hmem

/-- Helper: a phase bucket walk records one event per bucket entry. -/
theorem runPhaseBucket_length (ts : GooseTaskSet) (ph : Phase) :
    ∀ (b : List Nat) (u : GooseUser),
      (runPhaseBucket ts ph u b).2.length = b.length := by
  intro b
  induction b with
  | nil => intro u; rfl
  | cons i rest ih =>
    intro u
    simp only [runPhaseBucket, List.length_cons]
    rw [ih]

/-- Helper: a whole phase preserves the on_stop schedule. -/
theorem runPhase_on_stop (ts : GooseTaskSet) (shuf : Nat → List Nat → List Nat) (ph : Phase) :
    ∀ (sched : List (List Nat)) (si : Nat) (u : GooseUser),
      (runPhase ts shuf ph si u sched).1.weighted_on_stop_tasks
        = u.weighted_on_stop_tasks := by
  intro sched
  induction sched with
  | nil => intro si u; rfl
  | cons b rest ih =>
    intro si u
    simp only [runPhase]
    rw [ih, runPhaseBucket_on_stop]

/-- Helper: every event of a phase carries that phase. -/
theorem runPhase_phase (ts : GooseTaskSet) (shuf : Nat → List Nat → List Nat) (ph : Phase) :
    ∀ (sched : List (List Nat)) (si : Nat) (u : GooseUser),
      ∀ e ∈ (runPhase ts shuf ph si u sched).2.1, e.phase = ph := by
  intro sched
  induction sched with
  | nil => intro si u e he; simp [runPhase] at he
  | cons b rest ih =>
    intro si u e he
    simp only [runPhase, List.mem_append] at he
    rcases he with h1 | h2
    · exact runPhaseBucket_phase ts ph _ _ e h1
    · exact ih _ _ e h2

/-- Helper: with a length-preserving shuffler, a phase records one event
per schedule entry. -/
theorem runPhase_length (ts : GooseTaskSet) (shuf : Nat → List Nat → List Nat) (ph : Phase)
    (hlen : ∀ i l, (shuf i l).length = l.length) :
    ∀ (sched : List (List Nat)) (si : Nat) (u : GooseUser),
      (runPhase ts shuf ph si u sched).2.1.length = (sched.map List.length).sum := by
  intro sched
  induction sched with
  | nil => intro si u; rfl
  | cons b rest ih =>
    intro si u
    simp only [runPhase, List.length_append, List.map_cons, List.sum_cons]
    rw [runPhaseBucket_length, ih]
    congr 1
    split
    · exact hlen _ _
    · rfl

/-- Helper: a list of events all in phase ph contributes nothing to the
filter for a different phase. -/
theorem filter_phase_nil {l : List InvokeEvent} {ph q : Phase}
    (hall : ∀ e ∈ l, e.phase = ph) (hne : (ph == q) = false) :
    l.filter (fun e => e.phase == q) = [] := by
  rw [List.filter_eq_nil_iff]
  intro e he
  rw [hall e he, hne]
  simp

/-- Helper: a list of events all in phase q is fixed by the filter for
phase q. -/
theorem filter_phase_self {l : List InvokeEvent} {q : Phase}
    (hall : ∀ e ∈ l, e.phase = q) :
    l.filter (fun e => e.phase == q) = l := by
  rw [List.filter_eq_self]
  intro e he
  rw [hall e he]
  cases q <;> rfl

/-- Helper: the events of an on_start phase contribute nothing to the
on_stop filter. -/
theorem runPhase_onStart_filter (ts : GooseTaskSet) (shuf : Nat → List Nat → List Nat)
    (sched : List (List Nat)) (si : Nat) (u : GooseUser) :
    ((runPhase ts shuf Phase.onStart si u sched).2.1).filter
        (fun e => e.phase == Phase.onStop) = [] :=
  filter_phase_nil (runPhase_phase ts shuf Phase.onStart sched si u) (by rfl)

/-- Helper: the events of an on_stop phase are all kept by the on_stop
filter. -/
theorem runPhase_onStop_filter (ts : GooseTaskSet) (shuf : Nat → List Nat → List Nat)
    (sched : List (List Nat)) (si : Nat) (u : GooseUser) :
    ((runPhase ts shuf Phase.onStop si u sched).2.1).filter
        (fun e => e.phase == Phase.onStop)
      = (runPhase ts shuf Phase.onStop si u sched).2.1 :=
  filter_phase_self (runPhase_phase ts shuf Phase.onStop sched si u)

/-- C5 — once the sleep loop of an iteration observes EXIT (so that the
iteration comes back with thread_continue cleared), the steady loop stops
with no further invocation beyond the one already in flight in that
iteration — its event is the single event the iteration appended before
the sleep loop ran — and, whatever happens in its steady phase, user_main
still records one on_stop invocation per entry of the on_stop schedule,
after the steady trace. -/
theorem exit_stops_steady_loop_runs_on_stop
    (ts : GooseTaskSet) (shuf : Nat → List Nat → List Nat) (s : DriverState)
    (fuel fuel2 : Nat) (script : List (List GooseUserCommand)) (rng : List Nat)
    (u0 : GooseUser)
    (hlen : ∀ i l, (shuf i l).length = l.length)
    (hc : s.cont = true)
    (hexit : (loopIter ts shuf s).cont = false) :
    steadyRun ts shuf fuel (loopIter ts shuf s) = loopIter ts shuf s
    ∧ (steadyRun ts shuf fuel (loopIter ts shuf s)).trace
        = s.trace ++ [{ phase := Phase.steady, task_index := selectedTaskIndex shuf s,
                        task_name := selectedTaskName ts shuf s }]
    ∧ ((user_main fuel2 ts shuf script rng u0).trace.filter
          (fun e => e.phase == Phase.onStop)).length
        = (u0.weighted_on_stop_tasks.map List.length).sum := by
  refine ⟨steadyRun_stop ts shuf fuel _ hexit, ?_, ?_⟩
  · rw [steadyRun_stop ts shuf fuel _ hexit, loopIter_trace]
  · simp only [user_main, List.filter_append, List.length_append,
      runPhase_onStart_filter, steadyRun_filter_on_stop, runPhase_onStop_filter,
      List.filter_nil, List.nil_append, List.length_nil,
      runPhase_length ts shuf Phase.onStop hlen, steadyRun_on_stop, runPhase_on_stop]

/-- C5 witness — for the user u5 with steady schedule [[0]] and on_stop
schedule [[1]], an EXIT pending at the first drain point stops the loop
after the single in-flight invocation, and user_main records the one
on_stop invocation. -/
theorem exit_stops_steady_loop_runs_on_stop_witness :
    steadyRun ts5 shufId 3 (loopIter ts5 shufId s5) = loopIter ts5 shufId s5
    ∧ ((user_main 2 ts5 shufId [[GooseUserCommand.EXIT]] [] u5).trace.filter
        (fun e => e.phase == Phase.onStop)).length
      = (u5.weighted_on_stop_tasks.map List.length).sum := by
  have h := exit_stops_steady_loop_runs_on_stop ts5 shufId s5 3 2
    [[GooseUserCommand.EXIT]] [] u5 (fun _ _ => rfl) (by decide) (by decide)
  exact ⟨h.1, h.2.2⟩

/-- C7 — the claim that the atomic cursor fields always equal the local
cursor of the driver fails on the code: starting from the state s7 over
a two-bucket steady schedule, after two iterations the driver is in
bucket 1, yet the weighted_bucket atomic holds 0, because src/user.rs
lines 77-79 store the value of weighted_bucket_position — just reset to
zero — into the weighted_bucket atomic instead of the new bucket index. -/
theorem weighted_bucket_atomic_desync_bug :
    (steadyRun ts7 shufId 2 s7).bucket = 1
    ∧ (steadyRun ts7 shufId 2 s7).user.weighted_bucket = 0
    ∧ (steadyRun ts7 shufId 2 s7).user.weighted_bucket ≠ (steadyRun ts7 shufId 2 s7).bucket := by
  exact ⟨by decide, by decide, by decide⟩

/-- C8 counterexample — the claim that task_request_name is unset when
the selected task has an empty name fails on the code: over the state s8
the first iteration runs the task named a, the second runs the unnamed
task, and after that second iteration task_request_name still holds the
stale value some a rather than none, because src/user.rs lines 97-100
only ever assign the field and never clear it. -/
theorem task_request_name_persists_counterexample :
    (steadyRun ts8 shufId 2 s8).trace
      = [{ phase := Phase.steady, task_index := 0, task_name := "a" },
         { phase := Phase.steady, task_index := 1, task_name := "" }]
    ∧ (steadyRun ts8 shufId 2 s8).user.task_request_name = some ("a")
    ∧ some ("a") ≠ (none : Option String) := by
  exact ⟨by decide, by decide, by decide⟩

/-- C8 amended — in every steady iteration, after the task at the cursor
is selected, task_request_name equals the selected task name when that
name is nonempty, and is left unchanged — retaining whatever value it
already had — when the selected name is empty. -/
theorem task_request_name_update (ts : GooseTaskSet) (shuf : Nat → List Nat → List Nat)
    (s : DriverState) :
    (selectedTaskName ts shuf s ≠ "" →
      (loopIter ts shuf s).user.task_request_name = some (selectedTaskName ts shuf s))
    ∧ (selectedTaskName ts shuf s = "" →
      (loopIter ts shuf s).user.task_request_name = s.user.task_request_name) := by
  constructor
  · intro h
    simp only [loopIter]
    rw [if_pos h]
  · intro h
    simp only [loopIter]
    rw [if_neg (by simp [h])]
    exact advanceCursor_task_request_name shuf s

/-- C8 amended witness — for the state s8 the selected task of the first
iteration is named a, and after the iteration task_request_name holds
some a. -/
theorem task_request_name_update_witness :
    (loopIter ts8 shufId s8).user.task_request_name = some ("a") := by
  rw [(task_request_name_update ts8 shufId s8).1 (by decide)]
  decide

end Goose
